import Mathlib

/-!
Shallow embedding of src/radar.js (a browser radar-dashboard simulation).

JavaScript numbers are modelled as rationals (ℚ); every call to
Math.random() is modelled as an explicit rational input, constrained to
[0,1) in the theorems.  DOM side effects are modelled structurally: the
log area is a list of appended messages, the target table is the target
list itself, and the file download produced by generateReport is returned
as an optional (filename, contents) pair.
-/

namespace Radar

/-- Result of JavaScript `x.toFixed(1)` for a nonnegative number `x`:
a fixed-point value holding the number of tenths.  `toFixed` rounds to
the nearest multiple of 1/10, ties away from zero (for nonnegative
inputs, ties up). -/
structure Dec1 where
  tenths : ℕ
deriving DecidableEq, Repr

/-- Numeric value a `Dec1` string converts back to (JS `Number(...)`). -/
def Dec1.toRat (d : Dec1) : ℚ := (d.tenths : ℚ) / 10

/-- The string produced by `toFixed(1)`: integer part, a dot, one digit. -/
def Dec1.render (d : Dec1) : String :=
  toString (d.tenths / 10) ++ "." ++ toString (d.tenths % 10)

/-- `(x).toFixed(1)` for nonnegative `x`: round `10*x` to the nearest
integer (half up). -/
def toFixed1 (x : ℚ) : Dec1 := ⟨(round (x * 10)).toNat⟩

/-- A target generated by `scan()` (radar.js lines 31-37).  `distance`
and `velocity` are stored as `toFixed(1)` strings, modelled by `Dec1`. -/
structure Target where
  id : ℕ
  distance : Dec1
  velocity : Dec1
  lat : ℚ
  lng : ℚ
deriving DecidableEq, Repr

/-- The mutable state of the page: the global `targets` array and the
log area (list of messages, in append order). -/
structure RadarState where
  targets : List Target
  logs : List String
deriving DecidableEq, Repr

/-- `log(msg)` (radar.js lines 18-22): append a message to the log area. -/
def logMsg (msg : String) (s : RadarState) : RadarState :=
  { s with logs := s.logs ++ [msg] }

/-- The values drawn from Math.random() during one `scan()`.  The loop
bound `8 + Math.floor(Math.random() * 3)` sits in the `for` condition,
so it is re-evaluated with a fresh draw before every iteration:
`rCount i` is the draw used by the condition check at loop index `i`,
and the other four families are the draws of the loop body at index
`i`. -/
structure ScanRand where
  rCount : ℕ → ℚ
  rDist : ℕ → ℚ
  rVel : ℕ → ℚ
  rLat : ℕ → ℚ
  rLng : ℕ → ℚ

/-- All draws of a `ScanRand` lie in [0,1), as Math.random() guarantees. -/
def ScanRand.Valid (r : ScanRand) : Prop :=
  (∀ i, 0 ≤ r.rCount i ∧ r.rCount i < 1) ∧
  ∀ i, (0 ≤ r.rDist i ∧ r.rDist i < 1) ∧ (0 ≤ r.rVel i ∧ r.rVel i < 1) ∧
       (0 ≤ r.rLat i ∧ r.rLat i < 1) ∧ (0 ≤ r.rLng i ∧ r.rLng i < 1)

/-- The `for` loop of `scan()` (line 30), viewed as the final value of
`i`: starting at index `i`, keep iterating while the freshly drawn
condition `i < 8 + Math.floor(rCount i * 3)` holds.  `fuel` bounds the
number of remaining condition checks; `scanLen` supplies fuel 11, which
is enough because for draws below 1 the check at `i = 10` always fails
(proved in `scanLoopFrom_le`, not assumed). -/
def scanLoopFrom (rc : ℕ → ℚ) : ℕ → ℕ → ℕ
  | 0, i => i
  | fuel + 1, i =>
      if i < 8 + (⌊rc i * 3⌋).toNat then scanLoopFrom rc fuel (i + 1) else i

/-- The number of iterations the `scan()` loop performs, i.e. the number
of targets pushed. -/
def scanLen (rc : ℕ → ℚ) : ℕ := scanLoopFrom rc 11 0

/-- The target built in iteration `i` of the `scan()` loop (lines 31-37). -/
def mkTarget (rnd : ScanRand) (i : ℕ) : Target :=
  { id := i + 1
    distance := toFixed1 (rnd.rDist i * 200)
    velocity := toFixed1 (rnd.rVel i * 400)
    lat := 20 + rnd.rLat i * 10
    lng := 78 + rnd.rLng i * 10 }

/-- `scan()` (lines 25-47): log, replace the target list with a fresh
batch of `scanLen` targets, log the count.  (Marker/table/status/sweep
updates touch only external collaborators.) -/
def scan (rnd : ScanRand) (s : RadarState) : RadarState :=
  let s1 := logMsg ("Scanning environment...") s
  let n := scanLen rnd.rCount
  let ts := (List.range n).map (mkTarget rnd)
  logMsg (toString n ++ " targets detected.") { s1 with targets := ts }

/-- CSV header line of `generateReport()` (line 86). -/
def csvHeader : String := "ID,Distance(km),Velocity(m/s)"

/-- One CSV data row (line 87): id, distance string, velocity string. -/
def csvRow (t : Target) : String :=
  toString t.id ++ "," ++ t.distance.render ++ "," ++ t.velocity.render

/-- The CSV text built by `generateReport()` (lines 86-87): the header
then one row per target, each line terminated by a newline. -/
def reportCsv (ts : List Target) : String :=
  ts.foldl (fun acc t => acc ++ csvRow t ++ "\n") (csvHeader ++ "\n")

/-- The lines of the report, as a list: header followed by the rows in
store order.  `reportCsv` is exactly these lines each followed by a
newline (see `reportCsv_eq_joinLines`). -/
def reportLines (ts : List Target) : List String :=
  csvHeader :: ts.map csvRow

/-- `generateReport()` (lines 80-96).  Returns the new state together
with the offered download, `some (filename, contents)`, or `none` when
the store is empty. -/
def generateReport (s : RadarState) : RadarState × Option (String × String) :=
  if s.targets.length = 0 then
    (logMsg ("No targets to report.") s, none)
  else
    (logMsg ("Report downloaded as radar_report.csv") s,
     some ("radar_report.csv", reportCsv s.targets))

/-- `Math.max(x, xs...)`: fold of the binary maximum. -/
def jsMax (x : ℚ) (l : List ℚ) : ℚ := l.foldl max x

/-- `Math.min(x, xs...)`: fold of the binary minimum. -/
def jsMin (x : ℚ) (l : List ℚ) : ℚ := l.foldl min x

/-- The numbers computed by `analyze()` (lines 104-105): `none` when the
store is empty, otherwise the maximum velocity and minimum distance.
`Math.max`/`Math.min` coerce the stored strings back to numbers, so the
fold runs over the numeric values `Dec1.toRat`. -/
def analyzeResult (ts : List Target) : Option (ℚ × ℚ) :=
  match ts with
  | [] => none
  | t :: rest =>
      some (jsMax t.velocity.toRat (rest.map (fun u => u.velocity.toRat)),
            jsMin t.distance.toRat (rest.map (fun u => u.distance.toRat)))

/-- How a JS template literal prints a nonnegative one-decimal number:
the fractional part is dropped when it is zero. -/
def jsNumRender (q : ℚ) : String :=
  let t : ℤ := round (q * 10)
  if t % 10 = 0 then toString (t / 10)
  else toString (t / 10) ++ "." ++ toString (t % 10)

/-- `analyze()` (lines 99-107): on an empty store log a notice, else
compute max velocity and min distance and log them. -/
def analyze (s : RadarState) : RadarState :=
  match analyzeResult s.targets with
  | none => logMsg ("No data to analyze.") s
  | some (maxSpeed, closest) =>
      logMsg ("Analysis complete: Fastest " ++ jsNumRender maxSpeed ++
              " m/s, Closest " ++ jsNumRender closest ++ " km.") s

/-- The five status fields written by `updateSystemStatus()` (110-116). -/
structure Status where
  activeTargets : ℕ
  wind : String
  weather : String
  cpuLoad : String
  temperature : String
deriving DecidableEq, Repr

/-- Wind reading (line 112): `(10 + Math.random() * 20).toFixed(1)`. -/
def windDec (r : ℚ) : Dec1 := toFixed1 (10 + r * 20)

/-- CPU reading (line 114): `(30 + Math.random() * 60).toFixed(1)`. -/
def cpuDec (r : ℚ) : Dec1 := toFixed1 (30 + r * 60)

/-- Temperature reading (line 115): `(25 + Math.random() * 10).toFixed(1)`. -/
def tempDec (r : ℚ) : Dec1 := toFixed1 (25 + r * 10)

/-- Weather pick (line 113): index `Math.floor(Math.random() * 3)` into
the three conditions; an out-of-range index would read `undefined`. -/
def weatherStr (r : ℚ) : String :=
  (["Clear", "Cloudy", "Rainy"]).getD (⌊r * 3⌋).toNat ("undefined")

/-- `updateSystemStatus()` (lines 110-116), with one rational input per
Math.random() call, in source order. -/
def updateSystemStatus (ts : List Target) (rWind rWeather rCpu rTemp : ℚ) :
    Status :=
  { activeTargets := ts.length
    wind := (windDec rWind).render ++ " km/h"
    weather := weatherStr rWeather
    cpuLoad := (cpuDec rCpu).render ++ "%"
    temperature := (tempDec rTemp).render ++ "°C" }

/-- The action `executeCommand()` dispatches to. -/
inductive Command where
  | scanCmd | reportCmd | analyzeCmd | clearCmd | helpCmd
deriving DecidableEq, Repr

/-- JS `String.prototype.toLowerCase` on the ASCII command strings:
lowercase every character. -/
def jsToLowerCase (s : String) : String := ⟨s.data.map Char.toLower⟩

/-- `executeCommand()` (lines 128-135): lowercase the input, then exact
string match against the four commands; anything else shows help. -/
def executeCommand (input : String) : Command :=
  let cmd := jsToLowerCase input
  if cmd = "scan" then Command.scanCmd
  else if cmd = "report" then Command.reportCmd
  else if cmd = "analyze" then Command.analyzeCmd
  else if cmd = "clear" then Command.clearCmd
  else Command.helpCmd

/-- `clearLogs()` (lines 143-149): empty the log area, clear canvas and
markers (external), empty the target list, then log "System reset.". -/
def clearLogs (s : RadarState) : RadarState :=
  logMsg ("System reset.") { s with targets := [], logs := [] }

/-- State of one sweep animation run (`animateRadar`, lines 50-77):
the current angle, whether the interval is still active, and how many
redraws have been performed. -/
structure SweepState where
  angle : ℕ
  running : Bool
  draws : ℕ
deriving DecidableEq, Repr

/-- The state at the start of an animation run: angle 0, interval live. -/
def sweepInit : SweepState := { angle := 0, running := true, draws := 0 }

/-- One 30ms interval tick (lines 54-76): if the interval is live,
redraw (circle plus radial line at the current angle), advance the angle
by 3, and clear the interval once the angle reaches or exceeds 360.  A
cleared interval fires no more. -/
def sweepTick (st : SweepState) : SweepState :=
  if st.running then
    let a := st.angle + 3
    { angle := a, running := decide (a < 360), draws := st.draws + 1 }
  else st

/-- The sweep state after `n` ticks of an animation run. -/
def sweepRun (n : ℕ) : SweepState := sweepTick^[n] sweepInit

/-- A string consisting of an integer part, a dot, and exactly one
decimal digit. -/
def OneDecimalString (s : String) : Prop :=
  ∃ a b, s = a ++ "." ++ b ∧ b.length = 1 ∧ b.data.all Char.isDigit = true

/-- A fixed concrete random source (every draw is 1/2), used to
instantiate the universally quantified theorems at a concrete input. -/
def rnd0 : ScanRand :=
  { rCount := fun _ => 1/2, rDist := fun _ => 1/2, rVel := fun _ => 1/2
    rLat := fun _ => 1/2, rLng := fun _ => 1/2 }

/-- The page state right after load: no targets, empty log. -/
def st0 : RadarState := { targets := [], logs := [] }

/-!  Helper lemmas. -/

lemma Dec1.toRat_nonneg (d : Dec1) : 0 ≤ d.toRat := by
  unfold Dec1.toRat; positivity

lemma toFixed1_le (x : ℚ) (n : ℕ) (h : x < n) : (toFixed1 x).toRat ≤ n := by
  unfold toFixed1 Dec1.toRat
  have hfl : round (x * 10) ≤ (10 * n : ℤ) := by
    rw [round_eq]
    have : x * 10 + 1 / 2 < ((10 * n + 1 : ℤ) : ℚ) := by push_cast; linarith
    exact Int.lt_add_one_iff.mp (Int.floor_lt.mpr this)
  have htn : (round (x * 10)).toNat ≤ 10 * n := by omega
  rw [div_le_iff₀ (by norm_num : (0:ℚ) < 10)]
  calc ((round (x * 10)).toNat : ℚ) ≤ ((10 * n : ℕ) : ℚ) := by exact_mod_cast htn
    _ = n * 10 := by push_cast; ring

lemma le_toFixed1 (x : ℚ) (n : ℕ) (h : (n : ℚ) ≤ x) : (n : ℚ) ≤ (toFixed1 x).toRat := by
  unfold toFixed1 Dec1.toRat
  have hfl : (10 * n : ℤ) ≤ round (x * 10) := by
    rw [round_eq]
    exact Int.le_floor.mpr (by push_cast; linarith)
  have htn : 10 * n ≤ (round (x * 10)).toNat := by omega
  rw [le_div_iff₀ (by norm_num : (0:ℚ) < 10)]
  calc (n : ℚ) * 10 = ((10 * n : ℕ) : ℚ) := by push_cast; ring
    _ ≤ ((round (x * 10)).toNat : ℚ) := by exact_mod_cast htn

lemma digit_toString (k : ℕ) (h : k < 10) :
    (toString k).length = 1 ∧ ((toString k).data.all Char.isDigit) = true := by
  interval_cases k <;> exact ⟨by decide, by decide⟩

lemma Dec1.render_oneDecimal (d : Dec1) : OneDecimalString d.render := by
  refine ⟨toString (d.tenths / 10), toString (d.tenths % 10), rfl, ?_, ?_⟩
  · exact (digit_toString _ (Nat.mod_lt _ (by norm_num))).1
  · exact (digit_toString _ (Nat.mod_lt _ (by norm_num))).2

lemma le_jsMax_self (x : ℚ) (l : List ℚ) : x ≤ jsMax x l := by
  induction l generalizing x with
  | nil => exact le_rfl
  | cons a t ih => exact le_trans (le_max_left x a) (ih (max x a))

lemma le_jsMax_of_mem {y : ℚ} {l : List ℚ} (x : ℚ) (hy : y ∈ l) : y ≤ jsMax x l := by
  induction l generalizing x with
  | nil => cases hy
  | cons a t ih =>
      rcases List.mem_cons.mp hy with rfl | hmem
      · exact le_trans (le_max_right x y) (le_jsMax_self (max x y) t)
      · exact ih (max x a) hmem

lemma jsMax_mem (x : ℚ) (l : List ℚ) : jsMax x l = x ∨ jsMax x l ∈ l := by
  induction l generalizing x with
  | nil => exact Or.inl rfl
  | cons a t ih =>
      rcases ih (max x a) with h | h
      · rcases max_choice x a with hx | ha
        · exact Or.inl (by rw [show jsMax x (a :: t) = jsMax (max x a) t from rfl, h, hx])
        · exact Or.inr (List.mem_cons.mpr (Or.inl (by rw [show jsMax x (a :: t) = jsMax (max x a) t from rfl, h, ha])))
      · exact Or.inr (List.mem_cons.mpr (Or.inr h))

lemma jsMin_le_self (x : ℚ) (l : List ℚ) : jsMin x l ≤ x := by
  induction l generalizing x with
  | nil => exact le_rfl
  | cons a t ih => exact le_trans (ih (min x a)) (min_le_left x a)

lemma jsMin_le_of_mem {y : ℚ} {l : List ℚ} (x : ℚ) (hy : y ∈ l) : jsMin x l ≤ y := by
  induction l generalizing x with
  | nil => cases hy
  | cons a t ih =>
      rcases List.mem_cons.mp hy with rfl | hmem
      · exact le_trans (jsMin_le_self (min x y) t) (min_le_right x y)
      · exact ih (min x a) hmem

lemma jsMin_mem (x : ℚ) (l : List ℚ) : jsMin x l = x ∨ jsMin x l ∈ l := by
  induction l generalizing x with
  | nil => exact Or.inl rfl
  | cons a t ih =>
      rcases ih (min x a) with h | h
      · rcases min_choice x a with hx | ha
        · exact Or.inl (by rw [show jsMin x (a :: t) = jsMin (min x a) t from rfl, h, hx])
        · exact Or.inr (List.mem_cons.mpr (Or.inl (by rw [show jsMin x (a :: t) = jsMin (min x a) t from rfl, h, ha])))
      · exact Or.inr (List.mem_cons.mpr (Or.inr h))

/-- Concatenation of a list of lines, each terminated by a newline. -/
def joinLines (l : List String) : String :=
  l.foldr (fun line acc => line ++ "\n" ++ acc) ""

lemma foldl_report (ts : List Target) : ∀ acc : String,
    ts.foldl (fun a t => a ++ csvRow t ++ "\n") acc
      = acc ++ ts.foldr (fun t b => csvRow t ++ "\n" ++ b) "" := by
  induction ts with
  | nil => intro acc; simp
  | cons t ts ih =>
      intro acc
      rw [List.foldl_cons, ih, List.foldr_cons]
      simp [String.append_assoc]

lemma reportCsv_eq_joinLines (ts : List Target) :
    reportCsv ts = joinLines (reportLines ts) := by
  unfold reportCsv reportLines joinLines
  rw [foldl_report, List.foldr_cons, List.foldr_map]

lemma scan_targets_eq (rnd : ScanRand) (s : RadarState) :
    (scan rnd s).targets = (List.range (scanLen rnd.rCount)).map (mkTarget rnd) := rfl

lemma scanLoopFrom_le (rc : ℕ → ℚ) (hv : ∀ j, 0 ≤ rc j ∧ rc j < 1) :
    ∀ fuel i, i + fuel = 11 → i ≤ 10 → scanLoopFrom rc fuel i ≤ 10 := by
  intro fuel
  induction fuel with
  | zero => intro i h hle; omega
  | succ fuel ih =>
      intro i h hle
      simp only [scanLoopFrom]
      split
      · have hx : (⌊rc i * 3⌋).toNat ≤ 2 := by
          have ha : 0 ≤ ⌊rc i * 3⌋ := Int.floor_nonneg.mpr (by have := (hv i).1; linarith)
          have hb : ⌊rc i * 3⌋ < 3 := Int.floor_lt.mpr (by have := (hv i).2; push_cast; linarith)
          omega
        next hcond => exact ih (i + 1) (by omega) (by omega)
      · exact hle

lemma scanLoopFrom_min (rc : ℕ → ℚ) :
    ∀ fuel i, min 8 (i + fuel) ≤ scanLoopFrom rc fuel i := by
  intro fuel
  induction fuel with
  | zero => intro i; simp [scanLoopFrom]
  | succ fuel ih =>
      intro i
      simp only [scanLoopFrom]
      split
      · simpa [show i + 1 + fuel = i + (fuel + 1) by omega] using ih (i + 1)
      · next hcond =>
          have h8 : 8 ≤ i := by
            have hx : 0 ≤ (⌊rc i * 3⌋).toNat := Nat.zero_le _
            omega
          exact le_trans (min_le_left _ _) h8

lemma scanLen_ge (rc : ℕ → ℚ) : 8 ≤ scanLen rc := by
  simpa [scanLen] using scanLoopFrom_min rc 11 0

lemma scanLen_le (rc : ℕ → ℚ) (hv : ∀ j, 0 ≤ rc j ∧ rc j < 1) : scanLen rc ≤ 10 :=
  scanLoopFrom_le rc hv 11 0 (by norm_num) (by norm_num)

lemma weatherStr_cases (r : ℚ) (h0 : 0 ≤ r) (h1 : r < 1) :
    (r < 1/3 → weatherStr r = "Clear") ∧
    (1/3 ≤ r → r < 2/3 → weatherStr r = "Cloudy") ∧
    (2/3 ≤ r → weatherStr r = "Rainy") := by
  refine ⟨fun h => ?_, fun ha hb => ?_, fun h => ?_⟩
  · have hf : ⌊r * 3⌋ = 0 := by
      rw [Int.floor_eq_zero_iff]; exact ⟨by linarith, by linarith⟩
    unfold weatherStr; rw [hf]; rfl
  · have hf : ⌊r * 3⌋ = 1 := by
      rw [Int.floor_eq_iff]; constructor <;> push_cast <;> linarith
    unfold weatherStr; rw [hf]; rfl
  · have hf : ⌊r * 3⌋ = 2 := by
      rw [Int.floor_eq_iff]; constructor <;> push_cast <;> linarith
    unfold weatherStr; rw [hf]; rfl

lemma weatherStr_iff (r : ℚ) (h0 : 0 ≤ r) (h1 : r < 1) :
    (weatherStr r = "Clear" ↔ r < 1/3) ∧
    (weatherStr r = "Cloudy" ↔ 1/3 ≤ r ∧ r < 2/3) ∧
    (weatherStr r = "Rainy" ↔ 2/3 ≤ r) := by
  obtain ⟨hc, hm, hr⟩ := weatherStr_cases r h0 h1
  rcases lt_or_le r (1/3) with h | h
  · rw [hc h]
    exact ⟨iff_of_true rfl h,
      iff_of_false (by decide) (fun hh => absurd h (not_lt.mpr hh.1)),
      iff_of_false (by decide) (fun hh => absurd h (not_lt.mpr (by linarith)))⟩
  · rcases lt_or_le r (2/3) with h2 | h2
    · rw [hm h h2]
      exact ⟨iff_of_false (by decide) (fun hh => absurd hh (not_lt.mpr h)),
        iff_of_true rfl ⟨h, h2⟩,
        iff_of_false (by decide) (fun hh => absurd h2 (not_lt.mpr hh))⟩
    · rw [hr h2]
      exact ⟨iff_of_false (by decide) (fun hh => absurd hh (not_lt.mpr (by linarith))),
        iff_of_false (by decide) (fun hh => absurd hh.2 (not_lt.mpr h2)),
        iff_of_true rfl h2⟩

lemma sweepRun_succ (n : ℕ) : sweepRun (n + 1) = sweepTick (sweepRun n) :=
  Function.iterate_succ_apply' sweepTick n sweepInit

lemma sweepRun_closed (n : ℕ) (h : n ≤ 120) :
    sweepRun n = ⟨3 * n, decide (n < 120), n⟩ := by
  induction n with
  | zero => rfl
  | succ n ih =>
      rw [sweepRun_succ, ih (by omega)]
      unfold sweepTick
      have hrun : (decide (n < 120)) = true := decide_eq_true (by omega)
      rw [hrun]
      simp only [if_true]
      refine congrArg₂ (fun a b => SweepState.mk a b (n + 1)) (by omega) ?_
      exact decide_eq_decide.mpr (by omega)

lemma sweepRun_frozen (m : ℕ) : sweepRun (120 + m) = sweepRun 120 := by
  induction m with
  | zero => rfl
  | succ m ih =>
      have h120 : sweepRun 120 = ⟨360, false, 120⟩ := by
        have := sweepRun_closed 120 le_rfl
        simpa using this
      rw [show 120 + (m + 1) = (120 + m) + 1 by omega, sweepRun_succ, ih, h120]
      rfl

/-!  Claim theorems. -/

/-- Claim C1: every execution of `scan()` produces a target list of
between 8 and 10 targets whose ids are exactly the sequential integers
1..count in insertion order, and the prior list is entirely replaced
(the result does not depend on the previous state). -/
theorem scan_count_and_ids (rnd : ScanRand) (s s2 : RadarState)
    (hrc : ∀ i, 0 ≤ rnd.rCount i ∧ rnd.rCount i < 1) :
    8 ≤ (scan rnd s).targets.length ∧ (scan rnd s).targets.length ≤ 10 ∧
    (scan rnd s).targets.map (fun t => t.id)
      = (List.range (scan rnd s).targets.length).map (fun i => i + 1) ∧
    (scan rnd s).targets = (scan rnd s2).targets := by
  have hlen : (scan rnd s).targets.length = scanLen rnd.rCount := by
    rw [scan_targets_eq, List.length_map, List.length_range]
  refine ⟨?_, ?_, ?_, ?_⟩
  · rw [hlen]; exact scanLen_ge rnd.rCount
  · rw [hlen]; exact scanLen_le rnd.rCount hrc
  · rw [scan_targets_eq, List.length_map, List.length_range, List.map_map]
    rfl
  · rw [scan_targets_eq, scan_targets_eq]

/-- Witness for C1: `scan` at the concrete random source `rnd0` (all
draws 1/2), on the freshly loaded state, satisfies the claim. -/
theorem scan_count_and_ids_witness :
    8 ≤ (scan rnd0 st0).targets.length ∧ (scan rnd0 st0).targets.length ≤ 10 ∧
    (scan rnd0 st0).targets.map (fun t => t.id)
      = (List.range (scan rnd0 st0).targets.length).map (fun i => i + 1) ∧
    (scan rnd0 st0).targets = (scan rnd0 ⟨[], ["x"]⟩).targets :=
  scan_count_and_ids rnd0 st0 ⟨[], ["x"]⟩ (fun i => by norm_num [rnd0])

/-- Claim C4: `executeCommand()` lowercases the input and matches it
exactly: any input whose lowercase form is one of the four commands runs
that command ("SCAN" behaves like "scan"), every other input shows the
help display; there is no argument parsing or partial matching. -/
theorem executeCommand_dispatch :
    executeCommand "SCAN" = Command.scanCmd ∧
    executeCommand "scan" = Command.scanCmd ∧
    executeCommand "xyz" = Command.helpCmd ∧
    (∀ inp : String, jsToLowerCase inp = "scan" → executeCommand inp = Command.scanCmd) ∧
    (∀ inp : String, jsToLowerCase inp = "report" → executeCommand inp = Command.reportCmd) ∧
    (∀ inp : String, jsToLowerCase inp = "analyze" → executeCommand inp = Command.analyzeCmd) ∧
    (∀ inp : String, jsToLowerCase inp = "clear" → executeCommand inp = Command.clearCmd) ∧
    (∀ inp : String, jsToLowerCase inp ≠ "scan" → jsToLowerCase inp ≠ "report" →
      jsToLowerCase inp ≠ "analyze" → jsToLowerCase inp ≠ "clear" →
      executeCommand inp = Command.helpCmd) := by
  refine ⟨by decide, by decide, by decide, ?_, ?_, ?_, ?_, ?_⟩
  · intro inp h; simp only [executeCommand]; rw [if_pos h]
  · intro inp h
    simp only [executeCommand]
    rw [if_neg (by rw [h]; decide), if_pos h]
  · intro inp h
    simp only [executeCommand]
    rw [if_neg (by rw [h]; decide), if_neg (by rw [h]; decide), if_pos h]
  · intro inp h
    simp only [executeCommand]
    rw [if_neg (by rw [h]; decide), if_neg (by rw [h]; decide),
        if_neg (by rw [h]; decide), if_pos h]
  · intro inp h1 h2 h3 h4
    simp only [executeCommand]
    rw [if_neg h1, if_neg h2, if_neg h3, if_neg h4]

/-- Witness for C4: the dispatch theorem at concrete mixed-case and
unrecognized inputs. -/
theorem executeCommand_dispatch_witness :
    executeCommand "ScAn" = Command.scanCmd ∧
    executeCommand "REPORT" = Command.reportCmd ∧
    executeCommand "Analyze" = Command.analyzeCmd ∧
    executeCommand "cLeAr" = Command.clearCmd ∧
    executeCommand "scan " = Command.helpCmd :=
  ⟨executeCommand_dispatch.2.2.2.1 "ScAn" (by decide),
   executeCommand_dispatch.2.2.2.2.1 "REPORT" (by decide),
   executeCommand_dispatch.2.2.2.2.2.1 "Analyze" (by decide),
   executeCommand_dispatch.2.2.2.2.2.2.1 "cLeAr" (by decide),
   executeCommand_dispatch.2.2.2.2.2.2.2 "scan " (by decide) (by decide) (by decide) (by decide)⟩

/-- Claim C5: a sweep run starts at angle 0, advances the angle by
exactly 3 degrees on each tick while running (with one redraw per tick),
and stops once the angle reaches 360, after exactly 120 ticks; further
ticks change nothing (no further redraws). -/
theorem sweep_advances_and_stops :
    (∀ n : ℕ, n ≤ 120 → sweepRun n = ⟨3 * n, decide (n < 120), n⟩) ∧
    (∀ m : ℕ, sweepRun (120 + m) = sweepRun 120) ∧
    sweepInit.angle = 0 ∧
    (sweepRun 119).running = true ∧
    (sweepRun 120).running = false ∧
    (sweepRun 120).angle = 360 ∧
    (sweepRun 120).draws = 120 := by
  refine ⟨sweepRun_closed, sweepRun_frozen, rfl, ?_, ?_, ?_, ?_⟩
  · rw [sweepRun_closed 119 (by norm_num)]; rfl
  · rw [sweepRun_closed 120 le_rfl]; rfl
  · rw [sweepRun_closed 120 le_rfl]
  · rw [sweepRun_closed 120 le_rfl]

/-- Witness for C5: the closed form at tick 7 and frozenness at tick
125. -/
theorem sweep_advances_and_stops_witness :
    sweepRun 7 = ⟨3 * 7, decide (7 < 120), 7⟩ ∧ sweepRun (120 + 5) = sweepRun 120 :=
  ⟨sweep_advances_and_stops.1 7 (by norm_num), sweep_advances_and_stops.2.1 5⟩

/-- Claim C6: `clearLogs()` empties the target store, and a subsequent
`analyze()` (with no intervening scan) takes the empty-store path: it
only appends the notice and computes nothing. -/
theorem clear_then_analyze (s : RadarState) :
    (clearLogs s).targets = [] ∧
    analyzeResult (clearLogs s).targets = none ∧
    analyze (clearLogs s) = logMsg ("No data to analyze.") (clearLogs s) :=
  ⟨rfl, rfl, rfl⟩

/-- Claim C9: neither `analyze()` nor `generateReport()` modifies the
target store, on any state. -/
theorem report_analyze_pure (s : RadarState) :
    (analyze s).targets = s.targets ∧ ((generateReport s).1).targets = s.targets := by
  constructor
  · unfold analyze
    rcases h : analyzeResult s.targets with _ | ⟨m, c⟩ <;> simp [logMsg]
  · unfold generateReport
    split <;> simp [logMsg]

/-- A concrete target, used to instantiate theorems: id 1,
distance "12.3" km, velocity "400.5" m/s. -/
def t0 : Target := { id := 1, distance := ⟨123⟩, velocity := ⟨4005⟩, lat := 20, lng := 78 }

/-- Claim C2: `analyze()` on an empty store only logs a notice and
computes nothing; on a non-empty store its computed maximum velocity is
the true numeric maximum of the velocities and its computed minimum
distance the true numeric minimum of the distances (the fold compares
the numeric values, not the strings), and both are logged. -/
theorem analyze_empty_and_extrema :
    (∀ s : RadarState, s.targets = [] →
      analyze s = logMsg ("No data to analyze.") s ∧ analyzeResult s.targets = none) ∧
    (∀ l : List Target, l ≠ [] → ∃ m c, analyzeResult l = some (m, c) ∧
      m ∈ l.map (fun t => t.velocity.toRat) ∧
      (∀ v ∈ l.map (fun t => t.velocity.toRat), v ≤ m) ∧
      c ∈ l.map (fun t => t.distance.toRat) ∧
      (∀ d ∈ l.map (fun t => t.distance.toRat), c ≤ d)) ∧
    (∀ (s : RadarState) (m c : ℚ), analyzeResult s.targets = some (m, c) →
      analyze s = logMsg ("Analysis complete: Fastest " ++ jsNumRender m ++
        " m/s, Closest " ++ jsNumRender c ++ " km.") s) := by
  refine ⟨?_, ?_, ?_⟩
  · intro s h
    constructor
    · unfold analyze
      rw [h]
      rfl
    · rw [h]
      rfl
  · intro l hl
    cases l with
    | nil => exact absurd rfl hl
    | cons t rest =>
      refine ⟨jsMax t.velocity.toRat (rest.map (fun u => u.velocity.toRat)),
              jsMin t.distance.toRat (rest.map (fun u => u.distance.toRat)),
              by rfl, ?_, ?_, ?_, ?_⟩
      · rw [List.map_cons]
        rcases jsMax_mem t.velocity.toRat (rest.map (fun u => u.velocity.toRat)) with h | h
        · rw [h]; exact List.mem_cons_self _ _
        · exact List.mem_cons.mpr (Or.inr h)
      · intro v hv
        rw [List.map_cons] at hv
        rcases List.mem_cons.mp hv with rfl | hmem
        · exact le_jsMax_self _ _
        · exact le_jsMax_of_mem _ hmem
      · rw [List.map_cons]
        rcases jsMin_mem t.distance.toRat (rest.map (fun u => u.distance.toRat)) with h | h
        · rw [h]; exact List.mem_cons_self _ _
        · exact List.mem_cons.mpr (Or.inr h)
      · intro d hd
        rw [List.map_cons] at hd
        rcases List.mem_cons.mp hd with rfl | hmem
        · exact jsMin_le_self _ _
        · exact jsMin_le_of_mem _ hmem
  · intro s m c h
    unfold analyze
    rw [h]

/-- Witness for C2: the empty state and the one-target store `[t0]`. -/
theorem analyze_empty_and_extrema_witness :
    (analyze st0 = logMsg ("No data to analyze.") st0 ∧ analyzeResult st0.targets = none) ∧
    (∃ m c, analyzeResult [t0] = some (m, c) ∧
      m ∈ [t0].map (fun t => t.velocity.toRat) ∧
      (∀ v ∈ [t0].map (fun t => t.velocity.toRat), v ≤ m) ∧
      c ∈ [t0].map (fun t => t.distance.toRat) ∧
      (∀ d ∈ [t0].map (fun t => t.distance.toRat), c ≤ d)) ∧
    analyze ⟨[t0], []⟩ = logMsg ("Analysis complete: Fastest " ++ jsNumRender t0.velocity.toRat ++
      " m/s, Closest " ++ jsNumRender t0.distance.toRat ++ " km.") ⟨[t0], []⟩ :=
  ⟨analyze_empty_and_extrema.1 st0 rfl,
   analyze_empty_and_extrema.2.1 [t0] (by simp),
   analyze_empty_and_extrema.2.2 ⟨[t0], []⟩ t0.velocity.toRat t0.distance.toRat rfl⟩

/-- Claim C3: `generateReport()` on an empty store produces no file and
only logs a notice; on a non-empty store it offers a download named
radar_report.csv whose contents are exactly count+1 newline-terminated
lines: the header followed by one comma-separated row per target in
store order. -/
theorem generateReport_empty_and_csv :
    (∀ s : RadarState, s.targets = [] →
      generateReport s = (logMsg ("No targets to report.") s, none)) ∧
    (∀ s : RadarState, s.targets ≠ [] →
      generateReport s = (logMsg ("Report downloaded as radar_report.csv") s,
        some ("radar_report.csv", reportCsv s.targets))) ∧
    (∀ ts : List Target,
      reportLines ts = csvHeader :: ts.map csvRow ∧
      (reportLines ts).length = ts.length + 1 ∧
      reportCsv ts = joinLines (reportLines ts)) := by
  refine ⟨?_, ?_, ?_⟩
  · intro s h
    unfold generateReport
    rw [if_pos (by rw [h]; rfl)]
  · intro s h
    unfold generateReport
    rw [if_neg (by simpa [List.length_eq_zero] using h)]
  · intro ts
    exact ⟨rfl, by simp [reportLines], reportCsv_eq_joinLines ts⟩

/-- Witness for C3: the empty state and the one-target store `[t0]`. -/
theorem generateReport_empty_and_csv_witness :
    generateReport st0 = (logMsg ("No targets to report.") st0, none) ∧
    generateReport ⟨[t0], []⟩ = (logMsg ("Report downloaded as radar_report.csv") ⟨[t0], []⟩,
      some ("radar_report.csv", reportCsv [t0])) ∧
    (reportLines [t0] = csvHeader :: [t0].map csvRow ∧
      (reportLines [t0]).length = [t0].length + 1 ∧
      reportCsv [t0] = joinLines (reportLines [t0])) :=
  ⟨generateReport_empty_and_csv.1 st0 rfl,
   generateReport_empty_and_csv.2.1 ⟨[t0], []⟩ (by decide),
   generateReport_empty_and_csv.2.2 [t0]⟩

/-- Claim C7: every target produced by `scan()` has a distance value in
[0,200] and a velocity value in [0,400]. -/
theorem scan_value_ranges (rnd : ScanRand) (s : RadarState) (hv : rnd.Valid)
    (t : Target) (ht : t ∈ (scan rnd s).targets) :
    (0 ≤ t.distance.toRat ∧ t.distance.toRat ≤ 200) ∧
    (0 ≤ t.velocity.toRat ∧ t.velocity.toRat ≤ 400) := by
  rw [scan_targets_eq] at ht
  obtain ⟨i, _, rfl⟩ := List.mem_map.mp ht
  obtain ⟨⟨hd0, hd1⟩, ⟨hv0, hv1⟩, _, _⟩ := hv.2 i
  refine ⟨⟨Dec1.toRat_nonneg _, ?_⟩, ⟨Dec1.toRat_nonneg _, ?_⟩⟩
  · have : rnd.rDist i * 200 < (200 : ℕ) := by
      have := mul_lt_mul_of_pos_right hd1 (by norm_num : (0:ℚ) < 200)
      push_cast
      linarith
    simpa using toFixed1_le (rnd.rDist i * 200) 200 this
  · have : rnd.rVel i * 400 < (400 : ℕ) := by
      have := mul_lt_mul_of_pos_right hv1 (by norm_num : (0:ℚ) < 400)
      push_cast
      linarith
    simpa using toFixed1_le (rnd.rVel i * 400) 400 this

/-- Witness for C7: the first target of a concrete scan lies in range. -/
theorem scan_value_ranges_witness :
    (0 ≤ (mkTarget rnd0 0).distance.toRat ∧ (mkTarget rnd0 0).distance.toRat ≤ 200) ∧
    (0 ≤ (mkTarget rnd0 0).velocity.toRat ∧ (mkTarget rnd0 0).velocity.toRat ≤ 400) :=
  scan_value_ranges rnd0 st0
    (by refine ⟨fun i => ?_, fun i => ?_⟩ <;> norm_num [rnd0])
    (mkTarget rnd0 0)
    (by rw [scan_targets_eq]
        exact List.mem_map.mpr
          ⟨0, List.mem_range.mpr (lt_of_lt_of_le (by norm_num) (scanLen_ge rnd0.rCount)), rfl⟩)

/-- Claim C8: on every scan the status display receives the active
target count; a wind speed with one decimal; a weather condition that is
one of Clear, Cloudy, Rainy, each picked on an interval of length 1/3 of
the random draw (uniform); a CPU load with one decimal in [30,90]; and a
temperature with one decimal in [25,35]. -/
theorem updateSystemStatus_fields (ts : List Target) (r1 r2 r3 r4 : ℚ)
    (h2a : 0 ≤ r2) (h2b : r2 < 1) (h3a : 0 ≤ r3) (h3b : r3 < 1)
    (h4a : 0 ≤ r4) (h4b : r4 < 1) :
    (updateSystemStatus ts r1 r2 r3 r4).activeTargets = ts.length ∧
    (updateSystemStatus ts r1 r2 r3 r4).wind = (windDec r1).render ++ " km/h" ∧
    OneDecimalString (windDec r1).render ∧
    ((updateSystemStatus ts r1 r2 r3 r4).weather = "Clear" ↔ r2 < 1/3) ∧
    ((updateSystemStatus ts r1 r2 r3 r4).weather = "Cloudy" ↔ 1/3 ≤ r2 ∧ r2 < 2/3) ∧
    ((updateSystemStatus ts r1 r2 r3 r4).weather = "Rainy" ↔ 2/3 ≤ r2) ∧
    (updateSystemStatus ts r1 r2 r3 r4).cpuLoad = (cpuDec r3).render ++ "%" ∧
    OneDecimalString (cpuDec r3).render ∧
    30 ≤ (cpuDec r3).toRat ∧ (cpuDec r3).toRat ≤ 90 ∧
    (updateSystemStatus ts r1 r2 r3 r4).temperature = (tempDec r4).render ++ "°C" ∧
    OneDecimalString (tempDec r4).render ∧
    25 ≤ (tempDec r4).toRat ∧ (tempDec r4).toRat ≤ 35 := by
  obtain ⟨hw1, hw2, hw3⟩ := weatherStr_iff r2 h2a h2b
  refine ⟨rfl, rfl, Dec1.render_oneDecimal _, hw1, hw2, hw3,
          rfl, Dec1.render_oneDecimal _, ?_, ?_,
          rfl, Dec1.render_oneDecimal _, ?_, ?_⟩
  · exact_mod_cast le_toFixed1 (30 + r3 * 60) 30 (by push_cast; nlinarith)
  · exact_mod_cast toFixed1_le (30 + r3 * 60) 90 (by push_cast; nlinarith)
  · exact_mod_cast le_toFixed1 (25 + r4 * 10) 25 (by push_cast; nlinarith)
  · exact_mod_cast toFixed1_le (25 + r4 * 10) 35 (by push_cast; nlinarith)

/-- Witness for C8: the status fields at the concrete draws 1/2. -/
theorem updateSystemStatus_fields_witness :
    (updateSystemStatus [] (1/2) (1/2) (1/2) (1/2)).activeTargets = ([] : List Target).length ∧
    (updateSystemStatus [] (1/2) (1/2) (1/2) (1/2)).wind = (windDec (1/2)).render ++ " km/h" ∧
    OneDecimalString (windDec (1/2)).render ∧
    ((updateSystemStatus [] (1/2) (1/2) (1/2) (1/2)).weather = "Clear" ↔ (1/2 : ℚ) < 1/3) ∧
    ((updateSystemStatus [] (1/2) (1/2) (1/2) (1/2)).weather = "Cloudy" ↔ (1/3 : ℚ) ≤ 1/2 ∧ (1/2 : ℚ) < 2/3) ∧
    ((updateSystemStatus [] (1/2) (1/2) (1/2) (1/2)).weather = "Rainy" ↔ (2/3 : ℚ) ≤ 1/2) ∧
    (updateSystemStatus [] (1/2) (1/2) (1/2) (1/2)).cpuLoad = (cpuDec (1/2)).render ++ "%" ∧
    OneDecimalString (cpuDec (1/2)).render ∧
    30 ≤ (cpuDec (1/2)).toRat ∧ (cpuDec (1/2)).toRat ≤ 90 ∧
    (updateSystemStatus [] (1/2) (1/2) (1/2) (1/2)).temperature = (tempDec (1/2)).render ++ "°C" ∧
    OneDecimalString (tempDec (1/2)).render ∧
    25 ≤ (tempDec (1/2)).toRat ∧ (tempDec (1/2)).toRat ≤ 35 :=
  updateSystemStatus_fields [] (1/2) (1/2) (1/2) (1/2)
    (by norm_num) (by norm_num) (by norm_num) (by norm_num) (by norm_num) (by norm_num)

/-- Claim C10: every target produced by `scan()` stores its distance and
velocity as `toFixed(1)` results — one-decimal strings, not raw numbers —
so each CSV data row renders both fields with exactly one decimal
place. -/
theorem targets_store_one_decimal_strings (rnd : ScanRand) (s : RadarState)
    (t : Target) (ht : t ∈ (scan rnd s).targets) :
    (∃ i, i < scanLen rnd.rCount ∧ t = mkTarget rnd i ∧
      t.distance = toFixed1 (rnd.rDist i * 200) ∧
      t.velocity = toFixed1 (rnd.rVel i * 400)) ∧
    OneDecimalString t.distance.render ∧
    OneDecimalString t.velocity.render ∧
    csvRow t = toString t.id ++ "," ++ t.distance.render ++ "," ++ t.velocity.render := by
  rw [scan_targets_eq] at ht
  obtain ⟨i, hi, rfl⟩ := List.mem_map.mp ht
  exact ⟨⟨i, List.mem_range.mp hi, rfl, rfl, rfl⟩,
         Dec1.render_oneDecimal _, Dec1.render_oneDecimal _, rfl⟩

/-- Witness for C10: the first target of a concrete scan. -/
theorem targets_store_one_decimal_strings_witness :
    (∃ i, i < scanLen rnd0.rCount ∧ mkTarget rnd0 0 = mkTarget rnd0 i ∧
      (mkTarget rnd0 0).distance = toFixed1 (rnd0.rDist i * 200) ∧
      (mkTarget rnd0 0).velocity = toFixed1 (rnd0.rVel i * 400)) ∧
    OneDecimalString (mkTarget rnd0 0).distance.render ∧
    OneDecimalString (mkTarget rnd0 0).velocity.render ∧
    csvRow (mkTarget rnd0 0) = toString (mkTarget rnd0 0).id ++ ","
      ++ (mkTarget rnd0 0).distance.render ++ "," ++ (mkTarget rnd0 0).velocity.render :=
  targets_store_one_decimal_strings rnd0 st0 (mkTarget rnd0 0)
    (by rw [scan_targets_eq]
        exact List.mem_map.mpr
          ⟨0, List.mem_range.mpr (lt_of_lt_of_le (by norm_num) (scanLen_ge rnd0.rCount)), rfl⟩)

end Radar
